import Mathlib

/-!
Verification of the network_lib socket object system.

A shallow embedding of the socket object system of rampantpixels/network_lib
(src/network/tcp.c, src/unnamed/part_001 = socket.c) in Lean 4, together with
theorems settling the frozen claims about the handle registry, the descriptor
slot table, the ring-buffered reads, the state poller, the stream adapter and
module initialization.

Kernel calls (socket, connect, accept, select, ioctl FIONREAD, recv, send,
setsockopt, getsockname) are modelled as oracle inputs collected in a `Kernel`
record; logging, event posting and raw memory management are effect-free in the
model.  The object map (id to record) is a function `Nat → Option Socket`;
record field mutations through a looked-up pointer are modelled by writing the
updated record back into the map.
-/

namespace NetworkLib

/-- Socket slot states, from the socket header (values per the spec's state
machine NOT_CONNECTED → CONNECTING → CONNECTED / LISTENING / DISCONNECTED). -/
inductive SocketState where
  | notConnected
  | connecting
  | connected
  | listening
  | disconnected
deriving DecidableEq, Repr

/-- Modelled from the spec: the invalid-descriptor sentinel `SOCKET_INVALID`
from the socket header (header not among the provided sources); the spec calls
it "the sentinel INVALID". -/
def SOCKET_INVALID : Int := -1

/-- Modelled from the spec: slot flag bit `SOCKETFLAG_BLOCKING`; the header
defining the flag constants is not among the provided sources, the spec lists
the flags as a bitmask of distinct bits. -/
def SOCKETFLAG_BLOCKING : Nat := 1

/-- Modelled from the spec: slot flag bit `SOCKETFLAG_TCPDELAY`. -/
def SOCKETFLAG_TCPDELAY : Nat := 2

/-- Modelled from the spec: slot flag bit `SOCKETFLAG_POLLED`. -/
def SOCKETFLAG_POLLED : Nat := 4

/-- Modelled from the spec: slot flag bit `SOCKETFLAG_CONNECTION_PENDING`. -/
def SOCKETFLAG_CONNECTION_PENDING : Nat := 8

/-- Modelled from the spec: slot flag bit `SOCKETFLAG_ERROR_PENDING`. -/
def SOCKETFLAG_ERROR_PENDING : Nat := 16

/-- Modelled from the spec: slot flag bit `SOCKETFLAG_HANGUP_PENDING`. -/
def SOCKETFLAG_HANGUP_PENDING : Nat := 32

/-- Modelled from the spec: slot flag bit `SOCKETFLAG_REUSE_ADDR`. -/
def SOCKETFLAG_REUSE_ADDR : Nat := 64

/-- Modelled from the spec: slot flag bit `SOCKETFLAG_REUSE_PORT`. -/
def SOCKETFLAG_REUSE_PORT : Nat := 128

/-- Modelled from the spec: slot flag bit `SOCKETFLAG_REFLUSH`. -/
def SOCKETFLAG_REFLUSH : Nat := 256

/-- The C expression `flags & ~bits` on a 32-bit flag word. -/
def notMask (bits : Nat) : Nat := 4294967295 ^^^ bits

/-- The C conversion `(unsigned int)i` of a signed `int` value. -/
def uint32OfInt (i : Int) : Nat := (i % 4294967296).toNat

/-- A network address value (`network_address_t`): only the address family and
an opaque payload standing for the embedded sockaddr are relevant to the
socket layer; `network_address_clone` is value copying. -/
structure NetAddress where
  family : Nat
  payload : Nat
deriving DecidableEq, Repr

/-- The per-socket heap record `socket_t` (socket.c / the socket header):
identity, refcount, claimed slot index (`-1` when none), family, owned
addresses, ring-buffer cursors, lifetime counters and the stream back-pointer
(modelled as the adapter's identity token). -/
structure Socket where
  id : Nat
  ref : Int
  base : Int
  family : Nat
  addressLocal : Option NetAddress
  addressRemote : Option NetAddress
  offsetReadIn : Nat
  offsetWriteIn : Nat
  offsetWriteOut : Nat
  bytesRead : Nat
  bytesWritten : Nat
  stream : Option Nat
deriving DecidableEq, Repr

/-- A descriptor slot `socket_base_t`: owning id (0 when free), platform
descriptor, flag bitmask, state and last-event timestamp. -/
structure SocketBase where
  object : Nat
  fd : Int
  flags : Nat
  state : SocketState
  lastEvent : Nat
deriving DecidableEq, Repr

/-- The socket stream adapter `socket_stream_t`: its own identity token (the C
pointer identity) and the socket id it holds a reference to. -/
structure SocketStream where
  tok : Nat
  socket : Nat
deriving DecidableEq, Repr

/-- Outcome of the kernel `connect` call. -/
inductive ConnectKind where
  | ok
  | inProgress
  | errCode (e : Nat)
deriving DecidableEq, Repr

/-- Kernel oracle: the results the operating system returns to the library's
system calls during one modelled operation. -/
structure Kernel where
  openFd : Nat → Int
  bindOk : Bool
  setsockoptOk : Bool
  connectRes : ConnectKind
  soErr : Nat
  selectConnect : Int
  selectErr : Bool
  selectWrite : Bool
  availFd : Int → Int
  acceptFd1 : Int
  acceptWouldBlock : Bool
  acceptSelect : Int
  acceptFd2 : Int
  peerAddr : Nat
  localAddr : Nat → NetAddress
  allocOk : Bool

/-- Global module state: the object map (`_socket_map`, with its allocation
capacity recorded), the descriptor slot table (`_socket_base`), the atomic
slot cursor (`_socket_base_next`) and the object map's next fresh id. -/
@[ext]
structure NetState where
  map : Nat → Option Socket
  mapCapacity : Nat
  base : List SocketBase
  next : Nat
  nextId : Nat

/-- Store a record under an id in the object map (heap write through a
looked-up record pointer, or `objectmap_set`). -/
def mapSet (m : Nat → Option Socket) (id : Nat) (s : Socket) : Nat → Option Socket :=
  fun j => if j = id then some s else m j

/-- Source `objectmap_free`: decouple an id from its record. -/
def mapRemove (m : Nat → Option Socket) (id : Nat) : Nat → Option Socket :=
  fun j => if j = id then none else m j

/-- Overwrite slot `i` of the slot table. -/
def setSlot (st : NetState) (i : Nat) (sb : SocketBase) : NetState :=
  { st with base := st.base.set i sb }

/-- Read the state of slot `i` (the C read `sockbase->state`; the default is
never used at valid indices). -/
def slotState (st : NetState) (i : Nat) : SocketState :=
  ((st.base[i]?).map SocketBase.state).getD SocketState.notConnected

/-- Set the state of slot `i`. -/
def setSlotState (st : NetState) (i : Nat) (s : SocketState) : NetState :=
  match st.base[i]? with
  | some sb => setSlot st i { sb with state := s }
  | none => st

/-- Source `_socket_lookup` (socket.c): look the id up in the object map and bump the
record's refcount; returns the looked-up record and the updated state. -/
def _socket_lookup (st : NetState) (id : Nat) : Option (Socket × NetState) :=
  match st.map id with
  | none => none
  | some sock =>
    let sock1 := { sock with ref := sock.ref + 1 }
    some (sock1, { st with map := mapSet st.map id sock1 })

/-- The record-field effect of `_socket_close`: clear `base` and both owned
addresses. -/
def closedRecord (sock : Socket) : Socket :=
  { sock with base := -1, addressLocal := none, addressRemote := none }

/-- The slot effect of `_socket_close`: clear owner, descriptor, state and
flags (`last_event` is left alone). -/
def resetSlot (sb : SocketBase) : SocketBase :=
  { sb with object := 0, fd := SOCKET_INVALID, state := SocketState.notConnected, flags := 0 }

/-- Reset the slot a record had claimed, if any (the slot part of
`_socket_close`). -/
def closeSlots (bs : List SocketBase) (b : Int) : List SocketBase :=
  if 0 ≤ b then
    match bs[b.toNat]? with
    | some sb => bs.set b.toNat (resetSlot sb)
    | none => bs
  else bs

/-- Source `_socket_close` (socket.c): release the slot, clear the record's `base`
and addresses; the kernel-side shutdown/close of the captured descriptor has
no effect on the modelled state. -/
def _socket_close (st : NetState) (sock : Socket) : NetState :=
  { st with map := mapSet st.map sock.id (closedRecord sock),
            base := closeSlots st.base sock.base }

/-- Source `_socket_deallocate` (socket.c): free the map entry, close the socket and
release the record's memory.  The C frees the map entry before closing; no
lookup happens in between, so performing the close first and removing the
entry after has the same net effect on the state. -/
def _socket_deallocate (st : NetState) (sock : Socket) : NetState :=
  let st1 := _socket_close st sock
  { st1 with map := mapRemove st1.map sock.id }

/-- Source `socket_destroy` (socket.c), also called `socket_free` at the tcp.c call
sites: decrement the refcount and deallocate on the zero transition. -/
def socket_destroy (st : NetState) (id : Nat) : NetState :=
  match st.map id with
  | none => st
  | some sock =>
    if sock.ref - 1 = 0 then _socket_deallocate st { sock with ref := sock.ref - 1 }
    else { st with map := mapSet st.map id { sock with ref := sock.ref - 1 } }

/-- Source `socket_close` (socket.c): look up, close, release. -/
def socket_close (st : NetState) (id : Nat) : NetState :=
  match _socket_lookup st id with
  | none => st
  | some (sock, st1) => socket_destroy (_socket_close st1 sock) id

/-- The slot-scan of `_socket_allocate_base`: starting at the cursor, find the
first free slot (`object == 0`).  The C loop increments the shared cursor once
per probe and, having run past the end of the table, keeps spinning without
wrapping, so sequentially it visits exactly the indices from the cursor to the
end of the table. -/
def findFreeSlot (slots : List SocketBase) (i : Nat) : Option Nat :=
  if h : i < slots.length then
    if (slots.get ⟨i, h⟩).object = 0 then some i else findFreeSlot slots (i + 1)
  else none
termination_by slots.length - i

/-- Source `_socket_allocate_base` (socket.c): return the already-claimed slot, or
claim a fresh slot via the cursor scan, initializing its fields and recording
the slot index in the record.  `none` models the path on which the C never
returns a slot (the unreachable `return -1` / the spin past the table end). -/
def _socket_allocate_base (st : NetState) (sock : Socket) : Option (Socket × NetState) :=
  if 0 ≤ sock.base then some (sock, st)
  else
    match findFreeSlot st.base st.next with
    | none => none
    | some i =>
      let sb : SocketBase :=
        { object := sock.id, fd := SOCKET_INVALID, flags := 0,
          state := SocketState.notConnected, lastEvent := 0 }
      let sock1 := { sock with base := (i : Int) }
      some (sock1, { st with base := st.base.set i sb, next := i + 1,
                             map := mapSet st.map sock.id sock1 })

/-- Source `_socket_allocate` (socket.c): reserve a fresh id in the object map
(`k.allocOk` models reservation failure on exhaustion), build the
zero-initialized record with `ref = 1` and `base = -1`, and publish it. -/
def _socket_allocate (k : Kernel) (st : NetState) : Option (Socket × NetState) :=
  if k.allocOk then
    let id := st.nextId
    let sock : Socket :=
      { id := id, ref := 1, base := -1, family := 0,
        addressLocal := none, addressRemote := none,
        offsetReadIn := 0, offsetWriteIn := 0, offsetWriteOut := 0,
        bytesRead := 0, bytesWritten := 0, stream := none }
    some (sock, { st with map := mapSet st.map id sock, nextId := id + 1 })
  else none

/-- Source `_socket_set_blocking` (socket.c): ensure a slot, set or clear the
BLOCKING flag bit; the `fcntl`/`ioctlsocket` call on a live descriptor is
kernel-side only. -/
def _socket_set_blocking (st : NetState) (sock : Socket) (block : Bool) : Socket × NetState :=
  match _socket_allocate_base st sock with
  | none => (sock, st)
  | some (sock1, st1) =>
    match st1.base[sock1.base.toNat]? with
    | none => (sock1, st1)
    | some sb =>
      let sb1 := { sb with flags :=
        if block then sb.flags ||| SOCKETFLAG_BLOCKING
        else sb.flags &&& notMask SOCKETFLAG_BLOCKING }
      (sock1, setSlot st1 sock1.base.toNat sb1)

/-- Source `_socket_create_fd` (socket.c): ensure a slot; fail on a family switch on
a live descriptor; otherwise open a kernel socket through the transport's
`open_fn` (`_tcp_socket_open`) when none exists, recording the family.  The
re-application of the blocking/delay flags inside `_tcp_socket_open` rewrites
the same flag bits and is kernel-side only.  Returns `sockbase->fd`. -/
def _socket_create_fd (k : Kernel) (st : NetState) (sock : Socket) (family : Nat) :
    Int × Socket × NetState :=
  match _socket_allocate_base st sock with
  | none => (SOCKET_INVALID, sock, st)
  | some (sock1, st1) =>
    match st1.base[sock1.base.toNat]? with
    | none => (SOCKET_INVALID, sock1, st1)
    | some sb =>
      if sb.fd ≠ SOCKET_INVALID ∧ sock1.family ≠ family then (SOCKET_INVALID, sock1, st1)
      else if sb.fd = SOCKET_INVALID then
        let fd0 := k.openFd family
        let fd := if fd0 < 0 then SOCKET_INVALID else fd0
        let st2 := setSlot st1 sock1.base.toNat { sb with fd := fd }
        if fd ≠ SOCKET_INVALID then
          let sock2 := { sock1 with family := family }
          (fd, sock2, { st2 with map := mapSet st2.map sock2.id sock2 })
        else (SOCKET_INVALID, sock1, st2)
      else (sb.fd, sock1, st1)

/-- Source `socket_bind` (socket.c): look up, ensure a descriptor for the address
family, `bind` (oracle), store the local address on success, and release the
reference on every exit path. -/
def socket_bind (k : Kernel) (st : NetState) (id : Nat) (addr : NetAddress) : Bool × NetState :=
  match _socket_lookup st id with
  | none => (false, st)
  | some (sock, st1) =>
    let fsr := _socket_create_fd k st1 sock addr.family
    let fd := fsr.1
    let sock2 := fsr.2.1
    let st2 := fsr.2.2
    if fd = SOCKET_INVALID then (false, socket_destroy st2 id)
    else if k.bindOk then
      let sock3 := { sock2 with addressLocal := some (k.localAddr addr.family) }
      (true, socket_destroy { st2 with map := mapSet st2.map id sock3 } id)
    else (false, socket_destroy st2 id)

/-- Source `socket_set_multicast_group` (socket.c): look up, ensure a slot, require a
live descriptor, apply the membership `setsockopt` (oracle).  As in the
source, no exit path releases the reference taken by the lookup. -/
def socket_set_multicast_group (k : Kernel) (st : NetState) (id : Nat)
    (allowLoopback : Bool) : Bool × NetState :=
  match _socket_lookup st id with
  | none => (false, st)
  | some (sock, st1) =>
    match _socket_allocate_base st1 sock with
    | none => (false, st1)
    | some (sock1, st2) =>
      match st2.base[sock1.base.toNat]? with
      | none => (false, st2)
      | some sb =>
        if sb.fd = SOCKET_INVALID then (false, st2)
        else
          let loopbackOpt := allowLoopback
          let _ := loopbackOpt
          if k.setsockoptOk then (true, st2) else (false, st2)

/-- Source `_socket_buffered_in` (socket.c): bytes held in the in-ring, computed from
the two cursors; `R` is the build constant `BUILD_SIZE_SOCKET_READBUFFER`
(its header is not among the sources; the spec gives only its typical range,
so the model takes it as a parameter). -/
def _socket_buffered_in (R : Nat) (sock : Socket) : Nat :=
  if sock.offsetReadIn ≤ sock.offsetWriteIn then sock.offsetWriteIn - sock.offsetReadIn
  else (R - sock.offsetReadIn) + sock.offsetWriteIn

/-- Source `_socket_available_fd` (socket.c): `-1` for an invalid descriptor,
otherwise the kernel's FIONREAD answer (the oracle already folds the
"ioctl failed and nothing available" case into `-1`). -/
def _socket_available_fd (fd : Int) (k : Kernel) : Int :=
  if fd = SOCKET_INVALID then -1 else k.availFd fd

/-- Source `_socket_available_nonblock_read` (socket.c): in-ring bytes plus the
kernel-reported available bytes when positive. -/
def _socket_available_nonblock_read (k : Kernel) (R : Nat) (st : NetState) (sock : Socket) : Nat :=
  let available : Int :=
    if 0 ≤ sock.base then
      _socket_available_fd (((st.base[sock.base.toNat]?).map SocketBase.fd).getD SOCKET_INVALID) k
    else 0
  _socket_buffered_in R sock + (if 0 < available then available.toNat else 0)

/-- Source `_socket_poll_state` (socket.c): reconcile the state machine of slot `i`
from a non-blocking readiness probe.  `none` models the executions the C does
not define: an out-of-range slot pointer, and the DISCONNECTED fall-through
passing a null record pointer to `_socket_buffered_in` (whose non-null
assertion would fire).  Otherwise returns the final `sockbase->state` and the
updated state.  The debug-log-only lookups of the source are compiled out. -/
def _socket_poll_state (k : Kernel) (R : Nat) (st : NetState) (i : Nat) :
    Option (SocketState × NetState) :=
  match st.base[i]? with
  | none => none
  | some sb =>
    if sb.state = SocketState.notConnected ∨ sb.state = SocketState.disconnected then
      some (sb.state, st)
    else if sb.state = SocketState.connecting then
      if k.selectErr then
        match _socket_lookup st sb.object with
        | some (sock, st1) =>
          let st2 := _socket_close st1 sock
          let st3 := socket_destroy st2 sock.id
          some (slotState st3 i, st3)
        | none => some (slotState st i, st)
      else if k.selectWrite then
        let st1 := setSlotState st i SocketState.connected
        some (slotState st1 i, st1)
      else some (slotState st i, st)
    else if sb.state = SocketState.connected then
      let available := _socket_available_fd sb.fd k
      if available < 0 then
        let st1 := setSlotState st i SocketState.disconnected
        match _socket_lookup st1 sb.object with
        | none => none
        | some (sock, st2) =>
          let st3 := if _socket_buffered_in R sock = 0 then _socket_close st2 sock else st2
          let st4 := socket_destroy st3 sock.id
          some (slotState st4 i, st4)
      else some (slotState st i, st)
    else some (slotState st i, st)

/-- Source `_socket_eos` (socket.c, stream vtable): poll the state, then report end
of stream when the (post-poll) state is not CONNECTED or the descriptor is
invalid, and no bytes are available to a non-blocking read.  As in the source,
the `base < 0` early return skips the release of the looked-up reference.
`none` propagates an undefined poll execution. -/
def _socket_eos (k : Kernel) (R : Nat) (st : NetState) (id : Nat) :
    Option (Bool × NetState) :=
  match _socket_lookup st id with
  | none => some (true, st)
  | some (sock, st1) =>
    if sock.base < 0 then some (true, st1)
    else
      match _socket_poll_state k R st1 sock.base.toNat with
      | none => none
      | some (stt, st2) =>
        let sock2 := (st2.map id).getD sock
        let fd2 := ((st2.base[sock.base.toNat]?).map SocketBase.fd).getD SOCKET_INVALID
        let eosB : Bool :=
          (decide (stt ≠ SocketState.connected) || decide (fd2 = SOCKET_INVALID)) &&
            decide (_socket_available_nonblock_read k R st2 sock2 = 0)
        some (eosB, socket_destroy st2 id)

/-- The claim's description of `eos`, following the spec's words: true iff
(the socket's state is not CONNECTED or its descriptor is invalid) and the
in-ring buffer is empty. -/
def eosClaim (R : Nat) (st : NetState) (id : Nat) : Bool :=
  match st.map id with
  | none => true
  | some sock =>
    if sock.base < 0 then true
    else
      match st.base[sock.base.toNat]? with
      | none => true
      | some sb =>
        (decide (sb.state ≠ SocketState.connected) || decide (sb.fd = SOCKET_INVALID)) &&
          decide (_socket_buffered_in R sock = 0)

/-- Source `socket_stream` (socket.c): wrap a socket in a stream adapter.  When no
adapter exists yet, the reference created by the lookup is kept (transferred
to the adapter); otherwise the existing adapter is returned and the lookup
reference is released. -/
def socket_stream (st : NetState) (id : Nat) (freshTok : Nat) :
    Option SocketStream × NetState :=
  match _socket_lookup st id with
  | none => (none, st)
  | some (sock, st1) =>
    match sock.stream with
    | none =>
      let ss : SocketStream := { tok := freshTok, socket := id }
      let sock1 := { sock with stream := some freshTok }
      (some ss, { st1 with map := mapSet st1.map id sock1 })
    | some t => (some { tok := t, socket := id }, socket_destroy st1 id)

/-- Source `_socket_stream_finalize` (socket.c): when the adapter still holds an id,
look the record up, clear its stream back-pointer (the source asserts the
back-pointer references this adapter) and release; then clear the adapter's
id and release once more — the lookup's own reference plus the reference that
was transferred to the adapter at construction. -/
def _socket_stream_finalize (st : NetState) (ss : SocketStream) : SocketStream × NetState :=
  let id := ss.socket
  let st1 :=
    if id ≠ 0 then
      match _socket_lookup st id with
      | some (sock, stA) =>
        socket_destroy { stA with map := mapSet stA.map id { sock with stream := none } } id
      | none => st
    else st
  let ss1 : SocketStream := { ss with socket := 0 }
  if id ≠ 0 then (ss1, socket_destroy st1 id) else (ss1, st1)

/-- Source `_tcp_socket_connect` (tcp.c): kernel `connect` with the temporary
non-blocking pattern.  Immediate success sets CONNECTED; in-progress with zero
timeout sets CONNECTING and succeeds; in-progress with a positive timeout runs
`select` and consults SO_ERROR; other errors fail.  On success the remote
address is cloned and, when absent, the local address is captured.  Returns
(err, record, state) with err 0 on success; 110/115 stand for the platform
ETIMEDOUT and the select-failure errno. -/
def _tcp_socket_connect (k : Kernel) (st : NetState) (sock : Socket) (addr : NetAddress)
    (timeoutms : Nat) : Nat × Socket × NetState :=
  if sock.base < 0 then (0, sock, st)
  else
    match st.base[sock.base.toNat]? with
    | none => (0, sock, st)
    | some sb =>
      let blocking := sb.flags &&& SOCKETFLAG_BLOCKING ≠ 0
      let st1 := if 0 < timeoutms ∧ blocking then (_socket_set_blocking st sock false).2 else st
      let outcome : Option SocketState × Nat :=
        match k.connectRes with
        | ConnectKind.ok => (some SocketState.connected, 0)
        | ConnectKind.errCode e => (none, e)
        | ConnectKind.inProgress =>
          if timeoutms = 0 then (some SocketState.connecting, 0)
          else if 0 < k.selectConnect then
            if k.soErr = 0 then (some SocketState.connected, 0) else (none, k.soErr)
          else if k.selectConnect < 0 then (none, 115)
          else (none, 110)
      let st2 :=
        match outcome.1 with
        | some s => setSlotState st1 sock.base.toNat s
        | none => st1
      let st3 := if 0 < timeoutms ∧ blocking then (_socket_set_blocking st2 sock true).2 else st2
      match outcome.1 with
      | none => (outcome.2, sock, st3)
      | some _ =>
        let sock1 := { sock with addressRemote := some addr }
        let sock2 :=
          if sock1.addressLocal = none then
            { sock1 with addressLocal := some (k.localAddr addr.family) }
          else sock1
        (0, sock2, { st3 with map := mapSet st3.map sock2.id sock2 })

/-- Source `socket_connect` (socket.c): look up, ensure a descriptor for the address
family, require state NOT_CONNECTED, clear the pending-event flags and
`last_event`, run the transport's `connect_fn`, clone the remote address on
success, and release the reference on every exit path. -/
def socket_connect (k : Kernel) (st : NetState) (id : Nat) (addr : NetAddress)
    (timeoutms : Nat) : Bool × NetState :=
  match _socket_lookup st id with
  | none => (false, st)
  | some (sock, st1) =>
    let fsr := _socket_create_fd k st1 sock addr.family
    let fd := fsr.1
    let sock2 := fsr.2.1
    let st2 := fsr.2.2
    if fd = SOCKET_INVALID then (false, socket_destroy st2 id)
    else
      match st2.base[sock2.base.toNat]? with
      | none => (false, socket_destroy st2 id)
      | some sb =>
        if sb.state ≠ SocketState.notConnected then (false, socket_destroy st2 id)
        else
          let sb1 := { sb with
            flags := sb.flags &&& notMask
              (SOCKETFLAG_CONNECTION_PENDING ||| SOCKETFLAG_ERROR_PENDING |||
                SOCKETFLAG_HANGUP_PENDING),
            lastEvent := 0 }
          let st3 := setSlot st2 sock2.base.toNat sb1
          let csr := _tcp_socket_connect k st3 sock2 addr timeoutms
          let err := csr.1
          let sock3 := csr.2.1
          let st4 := csr.2.2
          if err ≠ 0 then (false, socket_destroy st4 id)
          else
            let sock4 := { sock3 with addressRemote := some addr }
            (true, socket_destroy { st4 with map := mapSet st4.map id sock4 } id)

/-- The flag assignment `sockbase->flags &= SOCKETFLAG_CONNECTION_PENDING`
performed by `tcp_socket_accept` on the listener's slot (tcp.c line 179),
modelled verbatim: a bitwise AND with the CONNECTION_PENDING bit. -/
def maskConnPending (st : NetState) (i : Nat) : NetState :=
  match st.base[i]? with
  | some sb => setSlot st i { sb with flags := sb.flags &&& SOCKETFLAG_CONNECTION_PENDING }
  | none => st

/-- Source `tcp_socket_accept` (tcp.c): require a LISTENING, locally bound slot with
a live descriptor; temporarily drop blocking when a timeout is given; kernel
`accept`, with a `select`-guarded retry on would-block; restore blocking;
apply the flag mask; on a failed accept return 0, otherwise allocate a new TCP
record, claim a slot for it, install the accepted descriptor with state
CONNECTED, record peer and local addresses, release the listener reference,
and return the new id. -/
def tcp_socket_accept (k : Kernel) (st : NetState) (id : Nat) (timeoutms : Nat) :
    Nat × NetState :=
  match _socket_lookup st id with
  | none => (0, st)
  | some (sock, st1) =>
    if sock.base < 0 then (0, socket_destroy st1 id)
    else
      match st1.base[sock.base.toNat]? with
      | none => (0, socket_destroy st1 id)
      | some sb =>
        if sb.state ≠ SocketState.listening ∨ sb.fd = SOCKET_INVALID ∨
            sock.addressLocal = none then
          (0, socket_destroy st1 id)
        else
          let blocking := sb.flags &&& SOCKETFLAG_BLOCKING ≠ 0
          let st2 := if 0 < timeoutms ∧ blocking then (_socket_set_blocking st1 sock false).2
            else st1
          let fam := (sock.addressLocal.getD { family := 0, payload := 0 }).family
          let fd0 := k.acceptFd1
          let fd := if fd0 < 0 ∧ 0 < timeoutms ∧ k.acceptWouldBlock ∧ 0 < k.acceptSelect
            then k.acceptFd2 else fd0
          let st3 := if 0 < timeoutms ∧ blocking then (_socket_set_blocking st2 sock true).2
            else st2
          let st4 := maskConnPending st3 sock.base.toNat
          if fd < 0 then (0, socket_destroy st4 id)
          else
            match _socket_allocate k st4 with
            | none => (0, socket_destroy st4 id)
            | some (acc, st5) =>
              match _socket_allocate_base st5 acc with
              | none => (0, socket_destroy (socket_destroy st5 acc.id) id)
              | some (acc1, st6) =>
                let st7 :=
                  match st6.base[acc1.base.toNat]? with
                  | some asb =>
                    setSlot st6 acc1.base.toNat
                      { asb with fd := fd, state := SocketState.connected }
                  | none => st6
                let acc2 := { acc1 with
                  addressRemote := some { family := fam, payload := k.peerAddr },
                  addressLocal := some (k.localAddr fam) }
                let st8 := { st7 with map := mapSet st7.map acc2.id acc2 }
                (acc2.id, socket_destroy st8 id)

/-- The zero-initialized descriptor slot produced by the zeroing allocation at
module init. -/
def emptySlot : SocketBase :=
  { object := 0, fd := 0, flags := 0, state := SocketState.notConnected, lastEvent := 0 }

/-- Source `_socket_initialize` (socket.c): allocate the object map with capacity
`max_sockets + (max_sockets > 256 ? 256 : 8)`, the zeroed slot table with
`max_sockets` slots, and zero the atomic slot cursor.  The stream vtable
installation has no counterpart in the modelled state. -/
def _socket_initialize_model (maxSockets : Nat) : NetState :=
  { map := fun _ => none,
    mapCapacity := maxSockets + (if 256 < maxSockets then 256 else 8),
    base := List.replicate maxSockets emptySlot,
    next := 0,
    nextId := 1 }

/-- The claim's registry sizing, following the spec's words:
`max_sockets + min(max_sockets, 256)`. -/
def claimRegistryCapacity (maxSockets : Nat) : Nat := maxSockets + min maxSockets 256

/-- Kernel responses consumed by one `recv` round of `_tcp_socket_buffer_read`:
the FIONREAD probe result, the `recv` result as a function of the requested
size, the slot's BLOCKING flag, and whether a negative `recv` reported one of
the teardown errnos (which drives `_socket_close`). -/
structure RecvCall where
  available : Int
  recv : Nat → Int
  blockingFlag : Bool
  teardownErr : Bool

/-- The `max_read` computation of `_tcp_socket_buffer_read` (tcp.c): the
contiguous writable region of the in-ring, with one byte sacrificed so the
write cursor never wraps onto the read cursor. -/
def ringMaxRead (R : Nat) (sock : Socket) : Nat :=
  if sock.offsetReadIn ≤ sock.offsetWriteIn then
    if sock.offsetReadIn = 0 then R - sock.offsetWriteIn - 1 else R - sock.offsetWriteIn
  else sock.offsetReadIn - sock.offsetWriteIn - 1

/-- The `try_read` computation of `_tcp_socket_buffer_read` (tcp.c): clamp
`max_read` by the wanted size, then raise to the kernel-available count
(itself clamped by `max_read`) when more is available. -/
def ringTryRead (R : Nat) (sock : Socket) (wanted availableU : Nat) : Nat :=
  let tryRead0 := if wanted ≠ 0 ∧ wanted < ringMaxRead R sock then wanted
    else ringMaxRead R sock
  if tryRead0 < availableU then
    (if ringMaxRead R sock < availableU then ringMaxRead R sock else availableU)
  else tryRead0

/-- The write-cursor advance of `_tcp_socket_buffer_read` (tcp.c):
`offset_write_in += ret`, wrapping to 0 on reaching the capacity. -/
def ringAdvanceWrite (R : Nat) (sock : Socket) (retN : Nat) : Socket :=
  { sock with offsetWriteIn :=
      if R ≤ sock.offsetWriteIn + retN then 0 else sock.offsetWriteIn + retN }

/-- The record-field effect of the `_socket_close` calls inside the buffered
read (peer closed, or a teardown errno): cursors untouched. -/
def ringClosed (sock : Socket) : Socket :=
  { sock with base := -1, addressLocal := none, addressRemote := none }

/-- Source `_tcp_socket_buffer_read` (tcp.c), ring-cursor dynamics: compute the
contiguous writable region of the in-ring, clamp by the wanted size and the
kernel-reported available bytes (converted to `unsigned int`, so `-1` becomes
`2^32 - 1`), `recv` into the ring, advance and wrap the write cursor, and
recurse for the wrap-around segment when more was wanted and available.  A
`recv` of 0 or a teardown errno closes the socket (cursors untouched).  The
oracle is indexed by the recursion depth; the fuel bounds the recursion (in C
each recursive call strictly decreases the wanted size, so the recursion
depth is bounded by the initial wanted size). -/
def _tcp_socket_buffer_read (R : Nat) (orc : Nat → RecvCall) (sbState : SocketState) :
    Nat → Nat → Socket → Socket
  | 0, _, sock => sock
  | fuel + 1, wanted, sock =>
    if sock.base < 0 then sock
    else if ringMaxRead R sock = 0 then sock
    else
      let c := orc fuel
      let availableU := uint32OfInt c.available
      if availableU = 0 ∧ wanted = 0 ∧ c.blockingFlag then sock
      else
        let tryRead := ringTryRead R sock wanted availableU
        let ret := c.recv tryRead
        if ret = 0 then ringClosed sock
        else if 0 < ret then
          let sock1 := ringAdvanceWrite R sock ret.toNat
          if sbState = SocketState.connected ∧ tryRead < wanted ∧ tryRead < availableU ∧
              sock1.offsetWriteIn = 0 ∧ 1 < sock1.offsetReadIn then
            _tcp_socket_buffer_read R orc sbState fuel (wanted - tryRead) sock1
          else sock1
        else if c.teardownErr then ringClosed sock
        else sock

/-- The per-iteration `copy` of the drain loop of `_socket_read` (socket.c):
the contiguous readable region, clamped by the remaining wanted size. -/
def ringDrainCopy (R : Nat) (sock : Socket) (want : Nat) : Nat :=
  let copy0 :=
    if sock.offsetReadIn ≤ sock.offsetWriteIn then sock.offsetWriteIn - sock.offsetReadIn
    else R - sock.offsetReadIn
  if want < copy0 then want else copy0

/-- The read-cursor advance of the drain loop of `_socket_read` (socket.c):
`offset_read_in += copy`, wrapping to 0 on reaching the capacity. -/
def ringAdvanceRead (R : Nat) (sock : Socket) (copy : Nat) : Socket :=
  { sock with offsetReadIn :=
      if sock.offsetReadIn + copy = R then 0 else sock.offsetReadIn + copy }

/-- The in-ring drain loop of `_socket_read` (socket.c), ring-cursor
dynamics: repeatedly copy the contiguous readable region (clamped by the
remaining wanted size) out of the ring, advancing and wrapping the read
cursor, until nothing more can be copied.  The fuel bounds the iteration
count (each productive iteration strictly decreases the remaining want). -/
def _socket_read_drain (R : Nat) : Nat → Nat → Socket → Socket
  | 0, _, sock => sock
  | fuel + 1, want, sock =>
    let copy := ringDrainCopy R sock want
    if copy = 0 then sock
    else _socket_read_drain R fuel (want - copy) (ringAdvanceRead R sock copy)

/-- One step of the in-ring history: a transport buffered read
(`_tcp_socket_buffer_read`), or the drain loop of a stream read
(`_socket_read`). -/
inductive RingOp where
  | bufferedRead (orc : Nat → RecvCall) (sbState : SocketState) (fuel wanted : Nat)
  | streamDrain (fuel want : Nat)

/-- Apply one ring operation to a record. -/
def applyRingOp (R : Nat) (sock : Socket) : RingOp → Socket
  | RingOp.bufferedRead orc sbState fuel wanted =>
    _tcp_socket_buffer_read R orc sbState fuel wanted sock
  | RingOp.streamDrain fuel want => _socket_read_drain R fuel want sock

/-- Apply a sequence of ring operations to a record. -/
def applyRingOps (R : Nat) (ops : List RingOp) (sock : Socket) : Socket :=
  ops.foldl (applyRingOp R) sock

/-! Section: Helper lemmas about the object map and close -/

theorem mapSet_self (m : Nat → Option Socket) (id : Nat) (s : Socket) :
    mapSet m id s id = some s := by
  simp [mapSet]

theorem mapSet_mapSet (m : Nat → Option Socket) (id : Nat) (a b : Socket) :
    mapSet (mapSet m id a) id b = mapSet m id b := by
  funext j
  by_cases h : j = id <;> simp [mapSet, h]

theorem mapRemove_mapSet (m : Nat → Option Socket) (id : Nat) (s : Socket) :
    mapRemove (mapSet m id s) id = mapRemove m id := by
  funext j
  by_cases h : j = id <;> simp [mapRemove, mapSet, h]

theorem mapRemove_self (m : Nat → Option Socket) (id : Nat) :
    mapRemove m id id = none := by
  simp [mapRemove]

theorem closedRecord_closedRecord (s : Socket) :
    closedRecord (closedRecord s) = closedRecord s := rfl

theorem closedRecord_base (s : Socket) : (closedRecord s).base = -1 := rfl

theorem closedRecord_ref (s : Socket) : (closedRecord s).ref = s.ref := rfl

theorem closedRecord_id (s : Socket) : (closedRecord s).id = s.id := rfl

theorem closeSlots_neg (bs : List SocketBase) (b : Int) (h : b < 0) :
    closeSlots bs b = bs := by
  simp [closeSlots, not_le.mpr h]

theorem socket_close_none (st : NetState) (id : Nat) (h : st.map id = none) :
    socket_close st id = st := by
  unfold socket_close _socket_lookup
  rw [h]

/-- Characterization of `socket_close` when the id resolves and the balanced
lookup/release pair does not hit zero: the record is replaced by its closed
form (refcount net unchanged) and the claimed slot, if any, is reset. -/
theorem socket_close_eq_pos (st : NetState) (id : Nat) (sock : Socket)
    (h : st.map id = some sock) (hid : sock.id = id) (hz : sock.ref ≠ 0) :
    socket_close st id =
      { st with map := mapSet st.map id (closedRecord sock),
                base := closeSlots st.base sock.base } := by
  simp only [socket_close, _socket_lookup, h, _socket_close, socket_destroy, hid,
    mapSet_mapSet, mapSet_self, closedRecord]
  simp only [Int.add_sub_cancel]
  rw [if_neg hz]

/-- Characterization of `socket_close` when the id resolves with refcount 0
(the release side of the balanced pair hits zero): the record is deallocated
and its map entry removed, the claimed slot reset. -/
theorem socket_close_eq_zero (st : NetState) (id : Nat) (sock : Socket)
    (h : st.map id = some sock) (hid : sock.id = id) (hz : sock.ref = 0) :
    socket_close st id =
      { st with map := mapRemove st.map id, base := closeSlots st.base sock.base } := by
  simp only [socket_close, _socket_lookup, h, _socket_close, socket_destroy, hid,
    mapSet_mapSet, mapSet_self, closedRecord, _socket_deallocate]
  simp only [Int.add_sub_cancel]
  rw [if_pos hz]
  rw [closeSlots_neg _ (-1) (by norm_num)]
  refine NetState.ext ?_ rfl rfl rfl rfl
  dsimp only
  rw [mapRemove_mapSet]

/-! Section: C7: idempotent close -/

/-- C7 (confirmed): closing a socket id twice in a row leaves the module state
exactly as closing it once does: after the first close the record observes
`base = -1` with both addresses cleared and its slot reset, and the second
close finds nothing left to tear down.  The hypothesis is the registry
invariant that a record is stored under its own id. -/
theorem socket_close_twice (st : NetState) (id : Nat)
    (hwf : ∀ s, st.map id = some s → s.id = id) :
    socket_close (socket_close st id) id = socket_close st id := by
  cases h : st.map id with
  | none => rw [socket_close_none st id h, socket_close_none st id h]
  | some sock =>
    have hid : sock.id = id := hwf sock h
    by_cases hz : sock.ref = 0
    · rw [socket_close_eq_zero st id sock h hid hz]
      exact socket_close_none _ id (mapRemove_self st.map id)
    · rw [socket_close_eq_pos st id sock h hid hz]
      have h2 : ({ st with map := mapSet st.map id (closedRecord sock), base := closeSlots st.base sock.base } : NetState).map id = some (closedRecord sock) :=
        mapSet_self st.map id (closedRecord sock)
      rw [socket_close_eq_pos _ id (closedRecord sock) h2 hid hz]
      refine NetState.ext ?_ rfl ?_ rfl rfl
      · dsimp only
        rw [mapSet_mapSet, closedRecord_closedRecord]
      · dsimp only
        rw [closedRecord_base, closeSlots_neg _ (-1) (by norm_num)]

/-! Section: Concrete fixtures for closed evaluations -/

/-- A default kernel oracle for the concrete evaluations: kernel socket
creation yields descriptor 7, `bind`/`setsockopt` succeed, `accept` fails. -/
def kDefault : Kernel :=
  { openFd := fun _ => 7, bindOk := true, setsockoptOk := true,
    connectRes := ConnectKind.ok, soErr := 0, selectConnect := 0,
    selectErr := false, selectWrite := false, availFd := fun _ => 0,
    acceptFd1 := -1, acceptWouldBlock := false, acceptSelect := 0, acceptFd2 := -1,
    peerAddr := 0, localAddr := fun f => { family := f, payload := 0 }, allocOk := true }

/-- A live, locally bound TCP record: id 1, refcount 1, slot 0 claimed. -/
def sockFix : Socket :=
  { id := 1, ref := 1, base := 0, family := 4,
    addressLocal := some { family := 4, payload := 9 }, addressRemote := none,
    offsetReadIn := 0, offsetWriteIn := 0, offsetWriteOut := 0,
    bytesRead := 0, bytesWritten := 0, stream := none }

/-- A listening slot for record 1 with BLOCKING and CONNECTION_PENDING set. -/
def slotListen : SocketBase :=
  { object := 1, fd := 7, flags := SOCKETFLAG_BLOCKING ||| SOCKETFLAG_CONNECTION_PENDING,
    state := SocketState.listening, lastEvent := 0 }

/-- Module state with record 1 listening on slot 0. -/
def stListen : NetState :=
  { map := fun j => if j = 1 then some sockFix else none, mapCapacity := 16,
    base := [slotListen], next := 1, nextId := 2 }

/-- A bound, not-yet-connected slot for record 1. -/
def slotBound : SocketBase :=
  { object := 1, fd := 7, flags := 0, state := SocketState.notConnected, lastEvent := 0 }

/-- Module state with record 1 bound on slot 0. -/
def stBound : NetState :=
  { map := fun j => if j = 1 then some sockFix else none, mapCapacity := 16,
    base := [slotBound], next := 1, nextId := 2 }

/-! Section: C1: accept's flag frame effect -/

/-- C1 (code bug): evaluating `tcp_socket_accept` on a listener whose slot
flags are BLOCKING|CONNECTION_PENDING, with the kernel accept failing and a
zero timeout.  The call returns 0 and the state stays LISTENING as claimed,
but the source's `sockbase->flags &= SOCKETFLAG_CONNECTION_PENDING` keeps only
the CONNECTION_PENDING bit: BLOCKING is lost and CONNECTION_PENDING survives —
the reverse of the claimed "flags preserved except CONNECTION_PENDING
cleared", whose result would have been the BLOCKING bit alone. -/
theorem tcp_accept_flag_mask_bug :
    (tcp_socket_accept kDefault stListen 1 0).1 = 0 ∧
    (((tcp_socket_accept kDefault stListen 1 0).2.base[0]?).map SocketBase.flags) =
      some SOCKETFLAG_CONNECTION_PENDING ∧
    (((tcp_socket_accept kDefault stListen 1 0).2.base[0]?).map SocketBase.state) =
      some SocketState.listening ∧
    SOCKETFLAG_CONNECTION_PENDING ≠
      (SOCKETFLAG_BLOCKING ||| SOCKETFLAG_CONNECTION_PENDING) &&&
        notMask SOCKETFLAG_CONNECTION_PENDING := by
  decide

/-! Section: C2: reference balance of the public entry points -/

/-- C2 (code bug): on the same live socket, `socket_bind` releases the
reference its lookup took (refcount 1 before and after), but
`socket_set_multicast_group` returns success without releasing on any exit
path, leaving the refcount at 2 — the record can never be reclaimed. -/
theorem multicast_group_ref_leak :
    (socket_set_multicast_group kDefault stBound 1 true).1 = true ∧
    (((socket_set_multicast_group kDefault stBound 1 true).2.map 1).map Socket.ref) =
      some 2 ∧
    (socket_bind kDefault stBound 1 { family := 4, payload := 9 }).1 = true ∧
    (((socket_bind kDefault stBound 1 { family := 4, payload := 9 }).2.map 1).map
      Socket.ref) = some 1 := by
  decide

/-- C7 witness: the idempotence of close evaluated on the concrete bound
socket state. -/
theorem socket_close_twice_witness :
    (∀ s, stBound.map 1 = some s → s.id = 1) ∧
    socket_close (socket_close stBound 1) 1 = socket_close stBound 1 := by
  have hwf : ∀ s, stBound.map 1 = some s → s.id = 1 := by
    intro s hs
    have hss : sockFix = s := by simpa [stBound] using hs
    rw [← hss]
    rfl
  exact ⟨hwf, socket_close_twice stBound 1 hwf⟩

/-! Section: C8: module initialization sizes -/

/-- C8 counterexample: at `max_sockets = 100` the code sizes the registry to
`108`, while the claim's `max_sockets + min(max_sockets, 256)` gives `200`. -/
theorem registry_capacity_counterexample :
    ( _socket_initialize_model 100).mapCapacity = 108 ∧
    claimRegistryCapacity 100 = 200 ∧
    ( _socket_initialize_model 100).mapCapacity ≠ claimRegistryCapacity 100 := by
  refine ⟨rfl, rfl, ?_⟩
  decide

/-! Section: C5: the in-ring cursor invariant -/

/-- Both in-ring cursors lie in `[0, R)`. -/
abbrev ringValid (R : Nat) (sock : Socket) : Prop :=
  sock.offsetReadIn < R ∧ sock.offsetWriteIn < R

theorem ringClosed_ringValid (R : Nat) (sock : Socket) (h : ringValid R sock) :
    ringValid R (ringClosed sock) := h

theorem ringAdvanceWrite_ringValid (R : Nat) (sock : Socket) (retN : Nat)
    (h : ringValid R sock) : ringValid R (ringAdvanceWrite R sock retN) := by
  obtain ⟨hr, hw⟩ := h
  refine ⟨hr, ?_⟩
  unfold ringAdvanceWrite
  dsimp only
  split <;> omega

theorem ringAdvanceRead_ringValid (R : Nat) (sock : Socket) (want : Nat)
    (h : ringValid R sock) :
    ringValid R (ringAdvanceRead R sock (ringDrainCopy R sock want)) := by
  obtain ⟨hr, hw⟩ := h
  refine ⟨?_, hw⟩
  unfold ringAdvanceRead ringDrainCopy
  dsimp only
  split_ifs <;> omega

theorem bufferRead_ringValid (R : Nat) (orc : Nat → RecvCall) (sbState : SocketState) :
    ∀ (fuel wanted : Nat) (sock : Socket), ringValid R sock →
      ringValid R ( _tcp_socket_buffer_read R orc sbState fuel wanted sock) := by
  intro fuel
  induction fuel with
  | zero => intro wanted sock h; exact h
  | succ n ih =>
    intro wanted sock h
    unfold _tcp_socket_buffer_read
    dsimp only
    split_ifs <;>
      first
        | exact h
        | exact ringClosed_ringValid R sock h
        | (apply ih; exact ringAdvanceWrite_ringValid R sock _ h)
        | exact ringAdvanceWrite_ringValid R sock _ h

theorem drain_ringValid (R : Nat) :
    ∀ (fuel want : Nat) (sock : Socket), ringValid R sock →
      ringValid R ( _socket_read_drain R fuel want sock) := by
  intro fuel
  induction fuel with
  | zero => intro want sock h; exact h
  | succ n ih =>
    intro want sock h
    unfold _socket_read_drain
    dsimp only
    split_ifs <;>
      first
        | exact h
        | (apply ih; exact ringAdvanceRead_ringValid R sock _ h)

theorem applyRingOp_ringValid (R : Nat) (sock : Socket) (op : RingOp)
    (h : ringValid R sock) : ringValid R (applyRingOp R sock op) := by
  cases op with
  | bufferedRead orc sbState fuel wanted =>
    exact bufferRead_ringValid R orc sbState fuel wanted sock h
  | streamDrain fuel want => exact drain_ringValid R fuel want sock h

theorem applyRingOps_ringValid (R : Nat) (ops : List RingOp) (sock : Socket)
    (h : ringValid R sock) : ringValid R (applyRingOps R ops sock) := by
  induction ops generalizing sock with
  | nil => exact h
  | cons op rest ih =>
    rw [applyRingOps, List.foldl_cons]
    exact ih (applyRingOp R sock op) (applyRingOp_ringValid R sock op h)

/-- With valid cursors, `_socket_buffered_in` computes exactly
`(offset_write_in − offset_read_in) mod R`. -/
theorem buffered_in_eq_mod (R : Nat) (sock : Socket) (h : ringValid R sock) :
    ( ( _socket_buffered_in R sock : Nat) : Int) =
      ((sock.offsetWriteIn : Int) - sock.offsetReadIn) % (R : Int) := by
  obtain ⟨hr, hw⟩ := h
  unfold _socket_buffered_in
  split_ifs with hcase
  · rw [Int.emod_eq_of_lt (by omega) (by omega)]
    omega
  · have hle : sock.offsetReadIn ≤ R := Nat.le_of_lt hr
    have hswap : ((sock.offsetWriteIn : Int) - sock.offsetReadIn) % (R : Int) =
        ((sock.offsetWriteIn : Int) - sock.offsetReadIn + (R : Int) * 1) % (R : Int) :=
      (Int.add_mul_emod_self_left ((sock.offsetWriteIn : Int) - sock.offsetReadIn)
        (R : Int) 1).symm
    rw [hswap, Int.emod_eq_of_lt (by omega) (by omega)]
    omega

/-- With valid cursors the buffered count is strictly below the capacity. -/
theorem buffered_in_lt (R : Nat) (sock : Socket) (h : ringValid R sock) :
    _socket_buffered_in R sock < R := by
  obtain ⟨hr, hw⟩ := h
  unfold _socket_buffered_in
  split_ifs <;> omega

/-- C5 (confirmed): starting from valid in-ring cursors, after any sequence of
transport buffered reads and stream-read drains both cursors remain in
`[0, R)`, the buffered byte count equals `(offset_write_in − offset_read_in)
mod R`, and the buffered count stays strictly below the capacity `R` — the
full ring is unreachable because the write cursor is never allowed to land on
the read cursor. -/
theorem ring_buffer_invariant (R : Nat) (ops : List RingOp) (sock : Socket)
    (h0 : sock.offsetReadIn < R ∧ sock.offsetWriteIn < R) :
    ((applyRingOps R ops sock).offsetReadIn < R ∧
      (applyRingOps R ops sock).offsetWriteIn < R) ∧
    (( ( _socket_buffered_in R (applyRingOps R ops sock) : Nat) : Int) =
      (((applyRingOps R ops sock).offsetWriteIn : Int) -
        (applyRingOps R ops sock).offsetReadIn) % (R : Int)) ∧
    _socket_buffered_in R (applyRingOps R ops sock) < R := by
  have hv := applyRingOps_ringValid R ops sock h0
  exact ⟨hv, buffered_in_eq_mod R _ hv, buffered_in_lt R _ hv⟩

/-- A concrete kernel response for the ring witness: 2 bytes available, recv
returns at most 2 bytes. -/
def recvFix : RecvCall :=
  { available := 2, recv := fun t => ((min t 2 : Nat) : Int), blockingFlag := false,
    teardownErr := false }

/-- A concrete in-ring history: one buffered read, then a stream-read drain. -/
def opsFix : List RingOp :=
  [RingOp.bufferedRead (fun _ => recvFix) SocketState.connected 2 3,
   RingOp.streamDrain 2 1]

/-- C5 witness: the invariant evaluated on a concrete ring of capacity 4
after a buffered read followed by a stream-read drain. -/
theorem ring_buffer_invariant_witness :
    (sockFix.offsetReadIn < 4 ∧ sockFix.offsetWriteIn < 4) ∧
    (((applyRingOps 4 opsFix sockFix).offsetReadIn < 4 ∧
      (applyRingOps 4 opsFix sockFix).offsetWriteIn < 4) ∧
    (( ( _socket_buffered_in 4 (applyRingOps 4 opsFix sockFix) : Nat) : Int) =
      (((applyRingOps 4 opsFix sockFix).offsetWriteIn : Int) -
        (applyRingOps 4 opsFix sockFix).offsetReadIn) % ((4 : Nat) : Int)) ∧
    _socket_buffered_in 4 (applyRingOps 4 opsFix sockFix) < 4) :=
  ⟨by decide, ring_buffer_invariant 4 opsFix sockFix (by decide)⟩

/-! Section: Slot helper lemmas -/

theorem setSlotState_map (st : NetState) (i : Nat) (s : SocketState) :
    (setSlotState st i s).map = st.map := by
  unfold setSlotState setSlot
  split <;> rfl

theorem resetSlot_object (sb : SocketBase) : (resetSlot sb).object = 0 := rfl

theorem resetSlot_fd (sb : SocketBase) : (resetSlot sb).fd = SOCKET_INVALID := rfl

theorem resetSlot_flags (sb : SocketBase) : (resetSlot sb).flags = 0 := rfl

theorem resetSlot_state (sb : SocketBase) :
    (resetSlot sb).state = SocketState.notConnected := rfl

theorem setSlot_getElem (st : NetState) (i : Nat) (sb : SocketBase)
    (h : i < st.base.length) : (setSlot st i sb).base[i]? = some sb :=
  List.getElem?_set_self h

theorem setSlot_base (st : NetState) (i : Nat) (sb : SocketBase) :
    (setSlot st i sb).base = st.base.set i sb := rfl

theorem setSlotState_base_of_get (st : NetState) (i : Nat) (sb : SocketBase)
    (s : SocketState) (h : st.base[i]? = some sb) :
    (setSlotState st i s).base = st.base.set i { sb with state := s } := by
  rw [setSlotState, h]
  rfl

/-! Section: C10: the fall-through lookup in the poller -/

/-- C10 (confirmed): when a CONNECTED slot observes a negative available-byte
probe and falls through to the DISCONNECTED branch of `_socket_poll_state`,
the slot/record consistency invariant (the slot's owner id resolves in the
registry) guarantees the fall-through lookup succeeds, so the record passed
to `_socket_buffered_in` is non-null and the poll is a defined execution
(the model never reaches the null-assertion path `none`). -/
theorem poll_disconnected_lookup_nonnull (k : Kernel) (R : Nat) (st : NetState) (i : Nat)
    (sb : SocketBase) (sock : Socket)
    (hb : st.base[i]? = some sb) (hs : sb.state = SocketState.connected)
    (hav : _socket_available_fd sb.fd k < 0)
    (hm : st.map sb.object = some sock) :
    ( _socket_poll_state k R st i).isSome = true := by
  unfold _socket_poll_state
  rw [hb]
  simp only [hs]
  rw [if_neg (by decide), if_neg (by decide), if_pos trivial, if_pos hav]
  unfold _socket_lookup
  rw [setSlotState_map, hm]
  simp

/-- A kernel oracle whose FIONREAD probe reports failure on every descriptor. -/
def kAvailNeg : Kernel := { kDefault with availFd := fun _ => -1 }

/-- A connected slot owned by record 1. -/
def slotConn : SocketBase :=
  { object := 1, fd := 3, flags := 0, state := SocketState.connected, lastEvent := 0 }

/-- Module state with record 1 connected on slot 0. -/
def stConn : NetState :=
  { map := fun j => if j = 1 then some sockFix else none, mapCapacity := 16,
    base := [slotConn], next := 1, nextId := 2 }

/-- C10 witness: the defined execution evaluated on a concrete connected slot
whose descriptor probe reports failure. -/
theorem poll_disconnected_lookup_nonnull_witness :
    (stConn.base[0]? = some slotConn ∧ slotConn.state = SocketState.connected ∧
      _socket_available_fd slotConn.fd kAvailNeg < 0 ∧
      stConn.map slotConn.object = some sockFix) ∧
    ( _socket_poll_state kAvailNeg 8 stConn 0).isSome = true :=
  ⟨⟨rfl, rfl, by decide, rfl⟩,
    poll_disconnected_lookup_nonnull kAvailNeg 8 stConn 0 slotConn sockFix rfl rfl
      (by decide) rfl⟩

/-! Section: C3: polling a CONNECTING slot -/

/-- A kernel oracle whose zero-timeout select reports the exception set. -/
def kSelErr : Kernel := { kDefault with selectErr := true }

/-- A kernel oracle whose zero-timeout select reports writability. -/
def kSelWrite : Kernel := { kDefault with selectWrite := true }

/-- A CONNECTING slot owned by record 1. -/
def slotConnecting : SocketBase :=
  { object := 1, fd := 3, flags := 0, state := SocketState.connecting, lastEvent := 0 }

/-- Module state with record 1 connecting on slot 0. -/
def stConnecting : NetState :=
  { map := fun j => if j = 1 then some sockFix else none, mapCapacity := 16,
    base := [slotConnecting], next := 1, nextId := 2 }

/-- C3 counterexample: on a CONNECTING slot whose select fires the exception
set, the poll closes the socket — which resets the slot state to
NOT_CONNECTED — and returns NOT_CONNECTED, not DISCONNECTED as claimed. -/
theorem poll_connecting_exception_counterexample :
    ( _socket_poll_state kSelErr 8 stConnecting 0).map Prod.fst =
      some SocketState.notConnected ∧
    SocketState.notConnected ≠ SocketState.disconnected := by
  decide

/-- C3 (amended): polling a CONNECTING slot runs the zero-timeout select on
the write and exception sets; if the exception set fires, the socket is
closed — the slot is reset (owner 0, invalid descriptor, flags 0) and the
record detached (`base = -1`) — and the poll returns NOT_CONNECTED (the state
the slot reset leaves behind); if only the write set fires, the slot's state
becomes CONNECTED and the poll returns CONNECTED. -/
theorem poll_connecting_amended (k : Kernel) (R : Nat) (st : NetState) (i : Nat)
    (sb : SocketBase) (sock : Socket)
    (hb : st.base[i]? = some sb) (hs : sb.state = SocketState.connecting)
    (hm : st.map sb.object = some sock) (hid : sock.id = sb.object)
    (hbase : sock.base = (i : Int)) (hlen : i < st.base.length) (href : sock.ref ≠ 0) :
    (k.selectErr = true →
      ∃ st2, _socket_poll_state k R st i = some (SocketState.notConnected, st2) ∧
        (st2.base[i]?).map SocketBase.object = some 0 ∧
        (st2.base[i]?).map SocketBase.fd = some SOCKET_INVALID ∧
        (st2.base[i]?).map SocketBase.flags = some 0 ∧
        (st2.map sb.object).map Socket.base = some (-1)) ∧
    (k.selectErr = false → k.selectWrite = true →
      ∃ st2, _socket_poll_state k R st i = some (SocketState.connected, st2) ∧
        (st2.base[i]?).map SocketBase.state = some SocketState.connected) := by
  constructor
  · intro herr
    unfold _socket_poll_state
    rw [hb]
    simp only [hs]
    rw [if_neg (by decide), if_pos trivial, if_pos herr]
    unfold _socket_lookup
    rw [hm]
    simp only [_socket_close, socket_destroy, hid, hbase, mapSet_mapSet, mapSet_self,
      closedRecord]
    simp only [Int.add_sub_cancel]
    rw [if_neg href]
    have hslots : closeSlots st.base (i : Int) = st.base.set i (resetSlot sb) := by
      unfold closeSlots
      rw [if_pos (by omega)]
      simp only [Int.toNat_natCast]
      rw [hb]
    rw [hslots]
    have hgs : (st.base.set i (resetSlot sb))[i]? = some (resetSlot sb) :=
      List.getElem?_set_self hlen
    simp [slotState, hgs, resetSlot_state, resetSlot_object, resetSlot_fd, resetSlot_flags,
      mapSet_self]
  · intro herr hwrite
    unfold _socket_poll_state
    rw [hb]
    simp only [hs]
    rw [if_neg (by decide), if_pos trivial, if_neg (by simp [herr]), if_pos hwrite]
    have hgs2 : (setSlotState st i SocketState.connected).base[i]? =
        some { sb with state := SocketState.connected } := by
      rw [setSlotState, hb]
      exact setSlot_getElem _ _ _ hlen
    simp [slotState, hgs2]

/-- C3 witness: the amended behavior evaluated on the concrete connecting
slot, for both the exception and the writable select outcome. -/
theorem poll_connecting_amended_witness :
    (stConnecting.base[0]? = some slotConnecting ∧
      stConnecting.map slotConnecting.object = some sockFix ∧
      sockFix.ref ≠ 0 ∧ kSelErr.selectErr = true) ∧
    (∃ st2, _socket_poll_state kSelErr 8 stConnecting 0 =
        some (SocketState.notConnected, st2) ∧
      (st2.base[0]?).map SocketBase.object = some 0 ∧
      (st2.base[0]?).map SocketBase.fd = some SOCKET_INVALID ∧
      (st2.base[0]?).map SocketBase.flags = some 0 ∧
      (st2.map slotConnecting.object).map Socket.base = some (-1)) :=
  ⟨⟨rfl, rfl, by decide, rfl⟩,
    (poll_connecting_amended kSelErr 8 stConnecting 0 slotConnecting sockFix rfl rfl rfl
      rfl rfl (by decide) (by decide)).1 rfl⟩

/-! Section: C6: connect with in-progress and zero timeout -/

/-- On a claimed slot, with the kernel reporting in-progress and a zero
timeout, `_tcp_socket_connect` sets the slot state to CONNECTING, stores the
remote (and, when absent, local) address, and returns success. -/
theorem tcp_connect_inprogress_zero (k : Kernel) (st : NetState) (sock : Socket)
    (addr : NetAddress) (i : Nat) (sb : SocketBase) (hbase : sock.base = (i : Int))
    (hb : st.base[i]? = some sb) (hconn : k.connectRes = ConnectKind.inProgress) :
    _tcp_socket_connect k st sock addr 0 =
      (0,
        (if ({ sock with addressRemote := some addr } : Socket).addressLocal = none then
          { ({ sock with addressRemote := some addr } : Socket) with
              addressLocal := some (k.localAddr addr.family) }
         else { sock with addressRemote := some addr }),
        { setSlotState st i SocketState.connecting with
            map := mapSet (setSlotState st i SocketState.connecting).map
              (if ({ sock with addressRemote := some addr } : Socket).addressLocal = none then
                ({ ({ sock with addressRemote := some addr } : Socket) with
                    addressLocal := some (k.localAddr addr.family) } : Socket)
               else { sock with addressRemote := some addr }).id
              (if ({ sock with addressRemote := some addr } : Socket).addressLocal = none then
                { ({ sock with addressRemote := some addr } : Socket) with
                    addressLocal := some (k.localAddr addr.family) }
               else { sock with addressRemote := some addr }) }) := by
  unfold _tcp_socket_connect
  rw [if_neg (by rw [hbase]; omega)]
  have hslot : st.base[sock.base.toNat]? = some sb := by
    rw [hbase, Int.toNat_natCast]
    exact hb
  rw [hslot]
  dsimp only
  rw [hconn]
  simp [hbase]

/-- C6 (confirmed): on a socket in state NOT_CONNECTED whose kernel `connect`
reports in-progress and whose timeout is 0, `socket_connect` returns success
and leaves the slot in state CONNECTING. -/
theorem connect_inprogress_zero_timeout (k : Kernel) (st : NetState) (id : Nat)
    (addr : NetAddress) (sock : Socket) (sb : SocketBase) (i : Nat)
    (hm : st.map id = some sock) (href : sock.ref ≠ 0)
    (hbase : sock.base = (i : Int)) (hb : st.base[i]? = some sb)
    (hlen : i < st.base.length)
    (hfd : sb.fd ≠ SOCKET_INVALID) (hfam : sock.family = addr.family)
    (hstate : sb.state = SocketState.notConnected)
    (hconn : k.connectRes = ConnectKind.inProgress) :
    (socket_connect k st id addr 0).1 = true ∧
    (((socket_connect k st id addr 0).2.base[i]?).map SocketBase.state) =
      some SocketState.connecting := by
  unfold socket_connect _socket_lookup
  rw [hm]
  dsimp only
  unfold _socket_create_fd _socket_allocate_base
  rw [if_pos (by simp [hbase] : (0:Int) ≤ ({ sock with ref := sock.ref + 1 } : Socket).base)]
  dsimp only
  have hslot1 : st.base[sock.base.toNat]? = some sb := by
    rw [hbase, Int.toNat_natCast]
    exact hb
  rw [hslot1]
  dsimp only
  have hc1 : ¬ (sb.fd ≠ SOCKET_INVALID ∧ sock.family ≠ addr.family) := by
    simp [hfam]
  rw [if_neg hc1, if_neg hfd]
  dsimp only
  rw [if_neg hfd, hslot1]
  dsimp only
  rw [if_neg (by simp [hstate] : ¬ sb.state ≠ SocketState.notConnected)]
  have htn : sock.base.toNat = i := by
    rw [hbase]
    exact Int.toNat_natCast i
  rw [htn]
  set SB1 : SocketBase := { sb with flags := sb.flags &&& notMask (SOCKETFLAG_CONNECTION_PENDING ||| SOCKETFLAG_ERROR_PENDING ||| SOCKETFLAG_HANGUP_PENDING), lastEvent := 0 } with hSB1
  set ST1 : NetState := { st with map := mapSet st.map id { sock with ref := sock.ref + 1 } } with hST1
  have hb3 : (setSlot ST1 i SB1).base[i]? = some SB1 := by
    rw [hST1]
    unfold setSlot
    exact List.getElem?_set_self (by simpa using hlen)
  have hcsr := tcp_connect_inprogress_zero k (setSlot ST1 i SB1)
    { sock with ref := sock.ref + 1 } addr i SB1 hbase hb3 hconn
  rw [hcsr]
  dsimp only
  have hgetlen : i < ((setSlot ST1 i SB1).base.set i
      { SB1 with state := SocketState.connecting }).length := by
    simp only [setSlot_base, List.length_set, hST1]
    simpa using hlen
  by_cases hal : sock.addressLocal = none <;>
    simp [hal, socket_destroy, mapSet_self, setSlotState_base_of_get _ _ _ _ hb3,
      setSlot_base, href, List.getElem?_set_self hgetlen] <;>
    exact ⟨_, List.getElem?_set_self (by simpa using hlen), rfl⟩

/-- The address used by the connect witness. -/
def addrFix : NetAddress := { family := 4, payload := 9 }

/-- A kernel oracle whose `connect` reports in-progress. -/
def kInProg : Kernel := { kDefault with connectRes := ConnectKind.inProgress }

/-- C6 witness: the deferred-completion behavior evaluated on the concrete
bound socket with an in-progress kernel connect and zero timeout. -/
theorem connect_inprogress_zero_timeout_witness :
    (stBound.map 1 = some sockFix ∧ slotBound.state = SocketState.notConnected ∧
      kInProg.connectRes = ConnectKind.inProgress ∧ sockFix.family = addrFix.family) ∧
    ((socket_connect kInProg stBound 1 addrFix 0).1 = true ∧
      (((socket_connect kInProg stBound 1 addrFix 0).2.base[0]?).map SocketBase.state) =
        some SocketState.connecting) :=
  ⟨⟨rfl, rfl, rfl, rfl⟩,
    connect_inprogress_zero_timeout kInProg stBound 1 addrFix sockFix slotBound 0 rfl
      (by decide) rfl rfl (by decide) (by decide) rfl rfl rfl⟩

/-! Section: C4: the eos predicate -/

/-- A kernel oracle reporting one available byte on every live descriptor. -/
def kAvail1 : Kernel := { kDefault with availFd := fun _ => 1 }

/-- A bound, not-connected slot with a live descriptor 5, owned by record 1. -/
def slotNC : SocketBase :=
  { object := 1, fd := 5, flags := 0, state := SocketState.notConnected, lastEvent := 0 }

/-- Module state with record 1 on the not-connected slot. -/
def stNC : NetState :=
  { map := fun j => if j = 1 then some sockFix else none, mapCapacity := 16,
    base := [slotNC], next := 1, nextId := 2 }

/-- State `stNC` after the reference bump performed by the lookup inside `eos`. -/
def stNC1 : NetState :=
  { stNC with map := mapSet stNC.map 1 { sockFix with ref := sockFix.ref + 1 } }

/-- C4 counterexample: a socket whose slot is NOT_CONNECTED with a live
descriptor, an empty in-ring and one kernel-reported available byte.  The
claim's predicate ((state not CONNECTED or fd invalid) and in-ring empty) is
true, yet `eos` returns false because the code tests the non-blocking
available count, which also counts the kernel-reported byte. -/
theorem eos_claim_counterexample :
    ( _socket_eos kAvail1 8 stNC 1).map Prod.fst = some false ∧
    eosClaim 8 stNC 1 = true := by
  decide

/-- C4 (amended): `eos` returns true iff (the post-poll state is not
CONNECTED or the descriptor read back from the slot is invalid) and the
non-blocking available-read count — in-ring bytes plus positive
kernel-reported bytes — is zero. -/
theorem eos_amended (k : Kernel) (R : Nat) (st : NetState) (id : Nat) (sock : Socket)
    (hm : st.map id = some sock) (hb : ¬ sock.base < 0)
    (stt : SocketState) (st2 : NetState)
    (hp : _socket_poll_state k R
      { st with map := mapSet st.map id { sock with ref := sock.ref + 1 } }
      sock.base.toNat = some (stt, st2)) :
    (( _socket_eos k R st id).map Prod.fst = some true ↔
      ((stt ≠ SocketState.connected ∨
          ((st2.base[sock.base.toNat]?).map SocketBase.fd).getD SOCKET_INVALID =
            SOCKET_INVALID) ∧
        _socket_available_nonblock_read k R st2
          ((st2.map id).getD { sock with ref := sock.ref + 1 }) = 0)) := by
  unfold _socket_eos _socket_lookup
  rw [hm]
  dsimp only
  rw [if_neg hb, hp]
  dsimp only
  simp [Bool.and_eq_true, Bool.or_eq_true, decide_eq_true_iff]

/-- C4 witness: the amended equivalence evaluated on the concrete
not-connected socket with one kernel-reported byte. -/
theorem eos_amended_witness :
    (stNC.map 1 = some sockFix ∧ ¬ sockFix.base < 0 ∧
      _socket_poll_state kAvail1 8 stNC1 sockFix.base.toNat =
        some (SocketState.notConnected, stNC1)) ∧
    (( _socket_eos kAvail1 8 stNC 1).map Prod.fst = some true ↔
      ((SocketState.notConnected ≠ SocketState.connected ∨
          ((stNC1.base[sockFix.base.toNat]?).map SocketBase.fd).getD SOCKET_INVALID =
            SOCKET_INVALID) ∧
        _socket_available_nonblock_read kAvail1 8 stNC1
          ((stNC1.map 1).getD { sockFix with ref := sockFix.ref + 1 }) = 0)) :=
  ⟨⟨rfl, by decide, rfl⟩,
    eos_amended kAvail1 8 stNC 1 sockFix rfl (by decide) SocketState.notConnected stNC1 rfl⟩

/-! Section: C9: the stream finalizer's reference balance -/

/-- C9 (confirmed): when the adapter still holds a socket id whose record is
live and back-references this adapter, the finalizer clears the record's
stream back-pointer, zeroes the adapter's id, and the record's refcount drops
by exactly one — the single reference transferred to the stream at
construction, net of the lookup/release pair the finalizer itself performs. -/
theorem stream_finalize_single_release (st : NetState) (ss : SocketStream) (sock : Socket)
    (hid0 : ss.socket ≠ 0) (hm : st.map ss.socket = some sock)
    (hstream : sock.stream = some ss.tok) (href : 2 ≤ sock.ref) :
    (( _socket_stream_finalize st ss).1.socket = 0) ∧
    ((( _socket_stream_finalize st ss).2.map ss.socket).map Socket.ref =
      some (sock.ref - 1)) ∧
    ((( _socket_stream_finalize st ss).2.map ss.socket).map Socket.stream = some none) := by
  have hz1 : ¬ ((sock.ref : Int) = 0) := by omega
  have hz2 : ¬ (sock.ref - 1 = 0) := by omega
  unfold _socket_stream_finalize _socket_lookup
  dsimp only
  rw [if_pos hid0, if_pos hid0, hm]
  dsimp only
  simp [socket_destroy, mapSet_self, Int.add_sub_cancel, hz1, hz2]

/-- The record wrapped by the finalizer witness: refcount 2, back-pointer to
adapter token 77. -/
def sockStreamFix : Socket := { sockFix with ref := 2, stream := some 77 }

/-- The stream adapter of the finalizer witness. -/
def ssFix : SocketStream := { tok := 77, socket := 1 }

/-- Module state for the finalizer witness. -/
def stStream : NetState :=
  { map := fun j => if j = 1 then some sockStreamFix else none, mapCapacity := 16,
    base := [slotBound], next := 1, nextId := 2 }

/-- C9 witness: the single-release balance evaluated on the concrete record
with refcount 2. -/
theorem stream_finalize_single_release_witness :
    (ssFix.socket ≠ 0 ∧ stStream.map ssFix.socket = some sockStreamFix ∧
      sockStreamFix.stream = some ssFix.tok ∧ 2 ≤ sockStreamFix.ref) ∧
    ((( _socket_stream_finalize stStream ssFix).1.socket = 0) ∧
      ((( _socket_stream_finalize stStream ssFix).2.map ssFix.socket).map Socket.ref =
        some (sockStreamFix.ref - 1)) ∧
      ((( _socket_stream_finalize stStream ssFix).2.map ssFix.socket).map Socket.stream =
        some none)) :=
  ⟨⟨by decide, rfl, rfl, by decide⟩,
    stream_finalize_single_release stStream ssFix sockStreamFix (by decide) rfl rfl
      (by decide)⟩

/-- C8 (amended): module initialization sizes the handle registry to
`max_sockets + 256` when `max_sockets > 256` and to `max_sockets + 8`
otherwise, allocates the descriptor slot table with exactly `max_sockets`
zeroed slots, and zeroes the atomic slot cursor. -/
theorem socket_initialize_sizes (maxSockets : Nat) :
    ( _socket_initialize_model maxSockets).mapCapacity =
      maxSockets + (if 256 < maxSockets then 256 else 8) ∧
    ( _socket_initialize_model maxSockets).base.length = maxSockets ∧
    ( _socket_initialize_model maxSockets).next = 0 := by
  refine ⟨rfl, ?_, rfl⟩
  simp [ _socket_initialize_model]

end NetworkLib
